import Mathlib

/-
Verification of the LFound lost-and-found portal's moderation core.

The embedded code comes from:
  * src/backend/supabase_schema.sql — the items / claim_requests /
    disputes / notifications tables, the BEFORE INSERT trigger
    check_suspicious_content, and the SQL functions
    create_notification and increment_item_view_count;
  * src/frontend/src/pages/AdminDashboard.js — the handlers
    handleItemAction, handleClaimAction and handleDisputeAction,
    which update the dashboard's local lists.

Tables are embedded as Lists of rows; SQL TEXT columns are Strings,
nullable columns are Options, INTEGER columns with a non-negativity
CHECK are Nat, and timestamps are Int hours (the only interval the
code uses is 24 hours).
-/

namespace LFound

/-- One step of substring matching: does the needle occur at the head
of the haystack? -/
def matchAt : List Char → List Char → Bool
  | [], _ => true
  | _ :: _, [] => false
  | a :: as, b :: bs => a == b && matchAt as bs

/-- Does the needle occur anywhere in the haystack? -/
def hasSub (nd : List Char) : List Char → Bool
  | [] => matchAt nd []
  | c :: t => matchAt nd (c :: t) || hasSub nd t

/-- `containsCI hay nd` is SQL `hay ILIKE '%nd%'`: case-insensitive
substring containment. -/
def containsCI (hay nd : String) : Bool :=
  hasSub (nd.data.map Char.toLower) (hay.data.map Char.toLower)

/-- A row of the `items` table (supabase_schema.sql, CREATE TABLE items).
Columns not touched by any embedded operation (description, category,
location, images, urgency, contact fields, timestamps other than
`created_at`) are omitted; `created_at` is kept because the
auto-flagging trigger queries it. -/
structure ItemRow where
  id : Nat
  user_id : Nat
  type : String
  title : String
  reward : Nat
  status : String
  view_count : Nat
  flagged : Bool
  flag_reason : Option String
  moderation_status : Option String
  created_at : Int
deriving DecidableEq

/-- A row of the `claim_requests` table. -/
structure ClaimRow where
  id : Nat
  item_id : Nat
  claimer_id : Nat
  message : String
  status : String
  priority : String
deriving DecidableEq

/-- A row of the `disputes` table, restricted to the fields the
dashboard handler reads or writes. -/
structure DisputeRow where
  id : Nat
  item_id : Nat
  type : String
  status : String
  priority : String
  lastActivity : String
deriving DecidableEq

/-- A row of the `notifications` table. -/
structure NotifRow where
  id : Nat
  user_id : Nat
  title : String
  message : String
  type : String
  priority : String
  related_item_id : Option Nat
  related_claim_id : Option Nat
  related_dispute_id : Option Nat
deriving DecidableEq

/-- The flag reason written by rule 1 of check_suspicious_content. -/
def hvReason : String := "High-value electronics with large reward - potential fraud"

/-- The flag reason written by rule 2 of check_suspicious_content. -/
def multiReason : String := "Multiple high-value items posted in short timeframe"

/-- The subquery of rule 2 of check_suspicious_content: how many rows
already stored in `items` belong to this user, carry reward > 50 and
were created within the trailing 24 hours.  The row being inserted is
not yet in the table (BEFORE INSERT trigger), so it is not counted. -/
def countRecentHighReward (db : List ItemRow) (now : Int) (uid : Nat) : Nat :=
  (db.filter (fun it =>
    it.user_id == uid && decide (50 < it.reward) && decide (now - 24 < it.created_at))).length

/-- The BEFORE INSERT trigger function check_suspicious_content
(supabase_schema.sql lines 390-416).  Two independent IF blocks run in
order; when both match, the second overwrites the flag reason written
by the first. -/
def check_suspicious_content (db : List ItemRow) (now : Int) (NEW : ItemRow) : ItemRow :=
  let n1 :=
    if containsCI NEW.title "iPhone" && containsCI NEW.title "found" && decide (100 < NEW.reward) then
      { NEW with flagged := true, flag_reason := some hvReason,
                 moderation_status := some "under_review" }
    else NEW
  if 3 ≤ countRecentHighReward db now NEW.user_id then
    { n1 with flagged := true, flag_reason := some multiReason,
              moderation_status := some "under_review" }
  else n1

/-- The fields a user supplies when creating an item; the moderation
fields take their schema defaults (flagged FALSE, flag_reason NULL,
moderation_status NULL, status active, view_count 0). -/
structure NewItemData where
  id : Nat
  user_id : Nat
  type : String
  title : String
  reward : Nat
deriving DecidableEq

/-- A fresh `items` row before the trigger runs: user content plus the
schema's column defaults. -/
def mkRow (d : NewItemData) (now : Int) : ItemRow :=
  { id := d.id, user_id := d.user_id, type := d.type, title := d.title,
    reward := d.reward, status := "active", view_count := 0, flagged := false,
    flag_reason := none, moderation_status := none, created_at := now }

/-- The state the admin dashboard operates on: the four lists held in
React state (`items`, `claims`, `disputes`) plus the notifications
table, which the embedded backend functions write. -/
structure PortalState where
  items : List ItemRow
  claims : List ClaimRow
  disputes : List DisputeRow
  notifications : List NotifRow
deriving DecidableEq

/-- The dashboard starts with empty lists. -/
def emptyState : PortalState := ⟨[], [], [], []⟩

/-- The status string handleItemAction assigns (AdminDashboard.js line
250): `action === 'approve' ? 'active' : action === 'reject' ?
'archived' : action`. -/
def itemActionStatus (action : String) : String :=
  if action == "approve" then "active"
  else if action == "reject" then "archived"
  else action

/-- handleItemAction (AdminDashboard.js lines 242-257): maps over the
items list and overwrites the matching item's `status`; the note is
only logged.  No other list and no other field is touched. -/
def handleItemAction (s : PortalState) (itemId : Nat) (action _note : String) : PortalState :=
  { s with items := s.items.map (fun it =>
      if it.id == itemId then { it with status := itemActionStatus action } else it) }

/-- handleClaimAction (AdminDashboard.js lines 259-269): sets the
matching claim's `status` to the action string; nothing else changes. -/
def handleClaimAction (s : PortalState) (claimId : Nat) (action : String) : PortalState :=
  { s with claims := s.claims.map (fun c =>
      if c.id == claimId then { c with status := action } else c) }

/-- handleDisputeAction (AdminDashboard.js lines 271-281): sets the
matching dispute's `status` to the action string and `lastActivity` to
"Just now"; nothing else changes. -/
def handleDisputeAction (s : PortalState) (disputeId : Nat) (action : String) : PortalState :=
  { s with disputes := s.disputes.map (fun d =>
      if d.id == disputeId then { d with status := action, lastActivity := "Just now" } else d) }

/-- Does the claim_requests table already hold a row for this
(item_id, claimer_id) pair? -/
def hasClaimPair (db : List ClaimRow) (i u : Nat) : Bool :=
  db.any (fun r => r.item_id == i && r.claimer_id == u)

/-- Inserting into claim_requests under the table's
UNIQUE(item_id, claimer_id) constraint (supabase_schema.sql line 73):
a duplicate pair makes the insert fail with a uniqueness violation
(the Conflict error), otherwise the row is appended. -/
def submitClaim (db : List ClaimRow) (c : ClaimRow) : Except String (List ClaimRow) :=
  if hasClaimPair db c.item_id c.claimer_id then Except.error "Conflict"
  else Except.ok (db ++ [c])

/-- The non-id arguments of the SQL function create_notification. -/
structure NotifArgs where
  user_id : Nat
  title : String
  message : String
  type : String
  priority : String
  related_item_id : Option Nat
  related_claim_id : Option Nat
  related_dispute_id : Option Nat
deriving DecidableEq

/-- create_notification (supabase_schema.sql lines 357-387): an
unconditional INSERT into notifications; `fresh` stands for the
generated uuid of the new row. -/
def create_notification (db : List NotifRow) (fresh : Nat) (a : NotifArgs) : List NotifRow :=
  db ++ [⟨fresh, a.user_id, a.title, a.message, a.type, a.priority,
          a.related_item_id, a.related_claim_id, a.related_dispute_id⟩]

/-- increment_item_view_count (supabase_schema.sql lines 347-354):
`UPDATE items SET view_count = view_count + 1 WHERE id = item_uuid`. -/
def increment_item_view_count (db : List ItemRow) (item_uuid : Nat) : List ItemRow :=
  db.map (fun it =>
    if it.id == item_uuid then { it with view_count := it.view_count + 1 } else it)

/-- Every state-changing operation the embedded code performs. -/
inductive Op where
  | createItem (now : Int) (d : NewItemData)
  | itemAction (itemId : Nat) (action note : String)
  | claimAction (claimId : Nat) (action : String)
  | disputeAction (disputeId : Nat) (action : String)
  | newClaim (c : ClaimRow)
  | newNotification (fresh : Nat) (a : NotifArgs)
  | viewItem (itemId : Nat)

/-- Apply one operation: item creation runs the auto-flag trigger on
the new row before it is stored; a rejected claim insert leaves the
state unchanged. -/
def applyOp (s : PortalState) : Op → PortalState
  | Op.createItem now d =>
      { s with items := s.items ++ [check_suspicious_content s.items now (mkRow d now)] }
  | Op.itemAction iid act note => handleItemAction s iid act note
  | Op.claimAction cid act => handleClaimAction s cid act
  | Op.disputeAction did act => handleDisputeAction s did act
  | Op.newClaim c =>
      match submitClaim s.claims c with
      | Except.ok cs => { s with claims := cs }
      | Except.error _ => s
  | Op.newNotification f a => { s with notifications := create_notification s.notifications f a }
  | Op.viewItem iid => { s with items := increment_item_view_count s.items iid }

/-- Run a sequence of operations from the empty state. -/
def runOps (ops : List Op) : PortalState := ops.foldl applyOp emptyState

/-- The item_status enum as declared in corrected_supabase_schema.sql
line 20. -/
def item_status_values : List String :=
  ["active", "claimed", "resolved", "archived", "removed"]

/-- The scenario item of the spec: kind found, reward 150, title
"Found iPhone 14 Pro". -/
def exFoundIphone : NewItemData := ⟨31, 9, "found", "Found iPhone 14 Pro", 150⟩

/-- An item whose kind is found and whose title names an electronics
keyword (iPhone) without containing the word "found". -/
def exC1a : ItemRow := mkRow ⟨21, 7, "found", "iPhone 14 Pro left at station", 150⟩ 0

/-- Three stored items of user 7, each with reward 60, created at
hours 0, 1 and 2. -/
def exHistDb : List ItemRow :=
  [mkRow ⟨41, 7, "lost", "Lost calculator near gym", 60⟩ 0,
   mkRow ⟨42, 7, "lost", "Lost headphones near gym", 60⟩ 1,
   mkRow ⟨43, 7, "lost", "Lost charger near gym", 60⟩ 2]

/-- The scenario item submitted by user 7 at hour 3, matching rule 1,
on top of the history exHistDb that also matches rule 2. -/
def exC1b : ItemRow := mkRow ⟨25, 7, "found", "Found iPhone 14 Pro", 150⟩ 3

/-- The fourth, unrelated item of the spec's rule-2 scenario:
reward 10, submitted by user 7 at hour 3. -/
def exC2fourth : ItemRow := mkRow ⟨44, 7, "lost", "Lost pencil case near gym", 10⟩ 3

/-- The rule-2 scenario as a run: user 7 submits three reward-60 items
at hours 0, 1, 2 and then a reward-10 item at hour 3. -/
def exOpsC2 : List Op :=
  [Op.createItem 0 ⟨41, 7, "lost", "Lost calculator near gym", 60⟩,
   Op.createItem 1 ⟨42, 7, "lost", "Lost headphones near gym", 60⟩,
   Op.createItem 2 ⟨43, 7, "lost", "Lost charger near gym", 60⟩,
   Op.createItem 3 ⟨44, 7, "lost", "Lost pencil case near gym", 10⟩]

/-- Claim C1 counterexample: (a) an item whose kind is "found", whose
reward is 150 and whose title matches the electronics keyword iPhone
is NOT flagged when the title lacks the word "found" — the trigger
tests the title, not the kind; (b) when rule 2 matches at the same
time as rule 1, the stored flag reason is rule 2's, not "high-value
electronics with large reward". -/
theorem check_suspicious_c1_cex :
    (exC1a.type = "found" ∧ 100 < exC1a.reward ∧
      containsCI exC1a.title "iPhone" = true ∧
      (check_suspicious_content [] 0 exC1a).flagged = false) ∧
    ((check_suspicious_content exHistDb 3 exC1b).flagged = true ∧
      (check_suspicious_content exHistDb 3 exC1b).flag_reason = some multiReason ∧
      multiReason ≠ hvReason ∧
      containsCI multiReason "electronics" = false) := by
  decide

/-- Claim C1 (amended): when the title contains both "iPhone" and
"found" case-insensitively, the reward exceeds 100, and the user's
stored history does not also trip rule 2, the evaluator flags the item
with reason "High-value electronics with large reward - potential
fraud" (which mentions high-value electronics) and sets
moderation_status to under_review. -/
theorem check_suspicious_rule1_spec (db : List ItemRow) (now : Int) (NEW : ItemRow)
    (h1 : containsCI NEW.title "iPhone" = true)
    (h2 : containsCI NEW.title "found" = true)
    (h3 : 100 < NEW.reward)
    (h4 : countRecentHighReward db now NEW.user_id < 3) :
    (check_suspicious_content db now NEW).flagged = true ∧
    (check_suspicious_content db now NEW).flag_reason = some hvReason ∧
    (check_suspicious_content db now NEW).moderation_status = some "under_review" ∧
    containsCI hvReason "high-value electronics" = true := by
  have h4x : ¬ 3 ≤ countRecentHighReward db now NEW.user_id := by omega
  refine ⟨?_, ?_, ?_, by decide⟩ <;>
    simp [check_suspicious_content, h1, h2, h3, h4x]

/-- Claim C1 witness: the spec's scenario item (reward 150, title
"Found iPhone 14 Pro") submitted with an empty history. -/
theorem check_suspicious_rule1_spec_witness :
    (containsCI (mkRow exFoundIphone 0).title "iPhone" = true ∧
     containsCI (mkRow exFoundIphone 0).title "found" = true ∧
     100 < (mkRow exFoundIphone 0).reward ∧
     countRecentHighReward [] 0 (mkRow exFoundIphone 0).user_id < 3) ∧
    ((check_suspicious_content [] 0 (mkRow exFoundIphone 0)).flagged = true ∧
     (check_suspicious_content [] 0 (mkRow exFoundIphone 0)).flag_reason = some hvReason ∧
     (check_suspicious_content [] 0 (mkRow exFoundIphone 0)).moderation_status =
       some "under_review" ∧
     containsCI hvReason "high-value electronics" = true) :=
  ⟨⟨by decide, by decide, by decide, by decide⟩,
   check_suspicious_rule1_spec [] 0 (mkRow exFoundIphone 0)
     (by decide) (by decide) (by decide) (by decide)⟩

/-- Claim C2 counterexample: running the spec's scenario (three
reward-60 submissions by user 7, then a reward-10 one), the 3rd item
is NOT flagged — the BEFORE INSERT subquery only counts previously
stored rows, of which there are two — while the 4th, reward-10 item IS
flagged with the "short timeframe" reason. -/
theorem check_suspicious_c2_cex :
    ((runOps exOpsC2).items.map (fun it => (it.flagged, it.flag_reason))) =
      [(false, none), (false, none), (false, none), (true, some multiReason)] ∧
    containsCI multiReason "short timeframe" = true := by
  decide

/-- Claim C2 (amended): the rule-2 subquery counts only rows already
stored.  Once the submitting user has at least 3 stored items with
reward over 50 inside the trailing 24 hours, the next submitted item —
whatever its own reward — is flagged with reason "Multiple high-value
items posted in short timeframe"; with fewer than 3 such rows and
rule 1 not matching, the row is stored unchanged (so the 3rd
submission of the scenario is not flagged). -/
theorem check_suspicious_rule2_spec (db : List ItemRow) (now : Int) (NEW : ItemRow) :
    (3 ≤ countRecentHighReward db now NEW.user_id →
      (check_suspicious_content db now NEW).flagged = true ∧
      (check_suspicious_content db now NEW).flag_reason = some multiReason ∧
      (check_suspicious_content db now NEW).moderation_status = some "under_review") ∧
    (countRecentHighReward db now NEW.user_id < 3 →
      (containsCI NEW.title "iPhone" && containsCI NEW.title "found" &&
        decide (100 < NEW.reward)) = false →
      check_suspicious_content db now NEW = NEW) := by
  constructor
  · intro h
    refine ⟨?_, ?_, ?_⟩ <;> simp [check_suspicious_content, h]
  · intro h hc
    have hx : ¬ 3 ≤ countRecentHighReward db now NEW.user_id := by omega
    simp [check_suspicious_content, hc, hx]

/-- Claim C2 witness: user 7's fourth submission (reward 10) on top of
three stored reward-60 items is flagged with the rule-2 reason. -/
theorem check_suspicious_rule2_spec_witness :
    (3 ≤ countRecentHighReward exHistDb 3 exC2fourth.user_id) ∧
    ((check_suspicious_content exHistDb 3 exC2fourth).flagged = true ∧
     (check_suspicious_content exHistDb 3 exC2fourth).flag_reason = some multiReason ∧
     (check_suspicious_content exHistDb 3 exC2fourth).moderation_status =
       some "under_review") :=
  ⟨by decide, (check_suspicious_rule2_spec exHistDb 3 exC2fourth).1 (by decide)⟩

/-- The trigger either leaves the row unchanged or sets
moderation_status to under_review (each rule writes both fields
together). -/
lemma check_cases (db : List ItemRow) (now : Int) (NEW : ItemRow) :
    check_suspicious_content db now NEW = NEW ∨
    (check_suspicious_content db now NEW).moderation_status = some "under_review" := by
  by_cases h2 : 3 ≤ countRecentHighReward db now NEW.user_id
  · right; simp [check_suspicious_content, h2]
  · cases h1 : (containsCI NEW.title "iPhone" && containsCI NEW.title "found" &&
        decide (100 < NEW.reward)) with
    | true => right; simp [check_suspicious_content, h1, h2]
    | false => left; simp [check_suspicious_content, h1, h2]

/-- The invariant of claim C3 on the items table. -/
def flaggedInv (items : List ItemRow) : Prop :=
  ∀ it ∈ items, it.flagged = true →
    it.moderation_status = some "flagged" ∨ it.moderation_status = some "under_review"

/-- Every operation preserves the flagged-implies-review invariant. -/
lemma flaggedInv_applyOp (s : PortalState) (op : Op) (h : flaggedInv s.items) :
    flaggedInv (applyOp s op).items := by
  cases op with
  | createItem now d =>
      intro it hmem hf
      simp only [applyOp] at hmem
      rcases List.mem_append.mp hmem with hmem | hmem
      · exact h it hmem hf
      · have heq : it = check_suspicious_content s.items now (mkRow d now) := by
          simpa using hmem
        rcases check_cases s.items now (mkRow d now) with hc | hc
        · exfalso; rw [heq, hc] at hf; simp [mkRow] at hf
        · right; rw [heq]; exact hc
  | itemAction iid act note =>
      intro it hmem hf
      simp only [applyOp, handleItemAction] at hmem
      rcases List.mem_map.mp hmem with ⟨a, ha, rfl⟩
      have hfl : ((if a.id == iid then { a with status := itemActionStatus act }
          else a) : ItemRow).flagged = a.flagged := by
        split <;> rfl
      have hms : ((if a.id == iid then { a with status := itemActionStatus act }
          else a) : ItemRow).moderation_status = a.moderation_status := by
        split <;> rfl
      rw [hfl] at hf
      rw [hms]
      exact h a ha hf
  | claimAction cid act =>
      intro it hmem hf
      exact h it hmem hf
  | disputeAction did act =>
      intro it hmem hf
      exact h it hmem hf
  | newClaim c =>
      intro it hmem hf
      simp only [applyOp] at hmem
      cases hsc : submitClaim s.claims c with
      | ok cs => rw [hsc] at hmem; exact h it hmem hf
      | error e => rw [hsc] at hmem; exact h it hmem hf
  | newNotification f a =>
      intro it hmem hf
      exact h it hmem hf
  | viewItem iid =>
      intro it hmem hf
      simp only [applyOp, increment_item_view_count] at hmem
      rcases List.mem_map.mp hmem with ⟨a, ha, rfl⟩
      have hfl : ((if a.id == iid then { a with view_count := a.view_count + 1 }
          else a) : ItemRow).flagged = a.flagged := by
        split <;> rfl
      have hms : ((if a.id == iid then { a with view_count := a.view_count + 1 }
          else a) : ItemRow).moderation_status = a.moderation_status := by
        split <;> rfl
      rw [hfl] at hf
      rw [hms]
      exact h a ha hf

/-- Folding any operation sequence preserves the invariant. -/
lemma flaggedInv_foldl (ops : List Op) :
    ∀ s, flaggedInv s.items → flaggedInv (List.foldl applyOp s ops).items := by
  induction ops with
  | nil => intro s hs; exact hs
  | cons op rest ih => intro s hs; exact ih _ (flaggedInv_applyOp s op hs)

/-- Claim C3: in every state reachable from the empty portal by item
creation (through the auto-flag trigger) and any sequence of the
embedded operations, a flagged item has moderation_status flagged or
under_review. -/
theorem flagged_implies_review (ops : List Op) (it : ItemRow)
    (hmem : it ∈ (runOps ops).items) (hf : it.flagged = true) :
    it.moderation_status = some "flagged" ∨ it.moderation_status = some "under_review" := by
  have base : flaggedInv emptyState.items := by
    intro x hx hfx
    simp [emptyState] at hx
  exact flaggedInv_foldl ops emptyState base it hmem hf

/-- The single run that creates the spec's scenario item. -/
def exOpsC3 : List Op := [Op.createItem 0 exFoundIphone]

/-- The row that run stores (rule 1 flags it). -/
def exRowC3 : ItemRow := check_suspicious_content [] 0 (mkRow exFoundIphone 0)

/-- Claim C3 witness: the flagged scenario row in the reachable state
after one creation. -/
theorem flagged_implies_review_witness :
    (exRowC3 ∈ (runOps exOpsC3).items ∧ exRowC3.flagged = true) ∧
    (exRowC3.moderation_status = some "flagged" ∨
     exRowC3.moderation_status = some "under_review") :=
  ⟨⟨by decide, by decide⟩,
   flagged_implies_review exOpsC3 exRowC3 (by decide) (by decide)⟩

/-- Claim C4: under the UNIQUE(item_id, claimer_id) constraint, when
no claim for the pair exists yet, whichever of two same-pair
submissions runs first succeeds and the other fails with Conflict —
in either order. -/
theorem submitClaim_unique (db : List ClaimRow) (c1 c2 : ClaimRow)
    (hi : c2.item_id = c1.item_id) (hu : c2.claimer_id = c1.claimer_id)
    (hfresh : hasClaimPair db c1.item_id c1.claimer_id = false) :
    submitClaim db c1 = Except.ok (db ++ [c1]) ∧
    submitClaim (db ++ [c1]) c2 = Except.error "Conflict" ∧
    submitClaim db c2 = Except.ok (db ++ [c2]) ∧
    submitClaim (db ++ [c2]) c1 = Except.error "Conflict" := by
  refine ⟨?_, ?_, ?_, ?_⟩
  · simp [submitClaim, hfresh]
  · have hdup : hasClaimPair (db ++ [c1]) c2.item_id c2.claimer_id = true := by
      simp [hasClaimPair, List.any_append, hi, hu]
    simp [submitClaim, hdup]
  · have hf2 : hasClaimPair db c2.item_id c2.claimer_id = false := by
      rw [hi, hu]; exact hfresh
    simp [submitClaim, hf2]
  · have hdup : hasClaimPair (db ++ [c2]) c1.item_id c1.claimer_id = true := by
      simp [hasClaimPair, List.any_append, hi, hu]
    simp [submitClaim, hdup]

/-- A first claim on item 8 by user 10. -/
def exClaimP : ClaimRow := ⟨1, 8, 10, "This is my phone, receipt attached", "pending", "high"⟩

/-- A second claim by the same user on the same item. -/
def exClaimQ : ClaimRow := ⟨2, 8, 10, "I can name the lock screen photo", "pending", "medium"⟩

/-- Claim C4 witness: two concrete same-pair submissions on an empty
table; each order lets exactly the first one through. -/
theorem submitClaim_unique_witness :
    (exClaimQ.item_id = exClaimP.item_id ∧ exClaimQ.claimer_id = exClaimP.claimer_id ∧
     hasClaimPair [] exClaimP.item_id exClaimP.claimer_id = false) ∧
    (submitClaim [] exClaimP = Except.ok ([] ++ [exClaimP]) ∧
     submitClaim ([] ++ [exClaimP]) exClaimQ = Except.error "Conflict" ∧
     submitClaim [] exClaimQ = Except.ok ([] ++ [exClaimQ]) ∧
     submitClaim ([] ++ [exClaimQ]) exClaimP = Except.error "Conflict") :=
  ⟨⟨rfl, rfl, by decide⟩, submitClaim_unique [] exClaimP exClaimQ rfl rfl (by decide)⟩

/-- An active item owned by user 5. -/
def exItem1 : ItemRow :=
  ⟨1, 5, "found", "Red backpack found at center", 30, "active", 0, false, none,
   some "pending", 0⟩

/-- A pending claim on item 1 by user 10. -/
def exClaimA : ClaimRow := ⟨1, 1, 10, "This is my backpack, has my books", "pending", "high"⟩

/-- A second pending claim on item 1 by user 11. -/
def exClaimB : ClaimRow := ⟨2, 1, 11, "No, that backpack is mine", "pending", "medium"⟩

/-- An open dispute on item 1. -/
def exDispute1 : DisputeRow := ⟨1, 1, "multiple_claims", "investigating", "high", "1 hour ago"⟩

/-- A dashboard state with two pending claims and an open dispute on
item 1. -/
def exStateC5 : PortalState := ⟨[exItem1], [exClaimA, exClaimB], [exDispute1], []⟩

/-- Claim C5 counterexample: approving claim 1 on an item with two
pending claims leaves the sibling claim pending (not rejected), leaves
the item status active (not claimed), emits no notification, and
leaves the open dispute investigating (not resolved). -/
theorem handleClaimAction_no_cascade :
    (handleClaimAction exStateC5 1 "approved").claims =
      [{ exClaimA with status := "approved" }, exClaimB] ∧
    exClaimB.status = "pending" ∧
    (handleClaimAction exStateC5 1 "approved").items = [exItem1] ∧
    exItem1.status = "active" ∧
    (handleClaimAction exStateC5 1 "approved").notifications = [] ∧
    (handleClaimAction exStateC5 1 "approved").disputes = [exDispute1] ∧
    exDispute1.status = "investigating" := by
  decide

/-- Claim C5 (amended): approving a claim only sets that claim's
status to the action string; every other claim keeps its row, and the
items, disputes and notifications lists are untouched — no sibling
auto-rejection, no item status change, no superseded notification, no
dispute resolution. -/
theorem handleClaimAction_local_spec (s : PortalState) (cid : Nat) (act : String)
    (c : ClaimRow) (hc : c ∈ s.claims) :
    (handleClaimAction s cid act).items = s.items ∧
    (handleClaimAction s cid act).disputes = s.disputes ∧
    (handleClaimAction s cid act).notifications = s.notifications ∧
    (c.id = cid → { c with status := act } ∈ (handleClaimAction s cid act).claims) ∧
    (c.id ≠ cid → c ∈ (handleClaimAction s cid act).claims) := by
  refine ⟨rfl, rfl, rfl, ?_, ?_⟩
  · intro hid
    refine List.mem_map.mpr ⟨c, hc, ?_⟩
    simp [hid]
  · intro hid
    refine List.mem_map.mpr ⟨c, hc, ?_⟩
    simp [hid]

/-- Claim C5 witness: approving claim 1 in the concrete two-claim
state stores its row with status approved. -/
theorem handleClaimAction_local_spec_witness :
    (exClaimA ∈ exStateC5.claims ∧ exClaimA.id = 1) ∧
    { exClaimA with status := "approved" } ∈ (handleClaimAction exStateC5 1 "approved").claims :=
  ⟨⟨by decide, rfl⟩,
   (handleClaimAction_local_spec exStateC5 1 "approved" exClaimA (by decide)).2.2.2.1 rfl⟩

/-- A dashboard state holding only item 1. -/
def exStateC6 : PortalState := ⟨[exItem1], [], [], []⟩

/-- Claim C6 counterexample: rejecting item 1 sets its status to
"archived", not "removed"; its moderation_status stays "pending"
instead of becoming "rejected"; and no notification is created. -/
theorem handleItemAction_reject_cex :
    (handleItemAction exStateC6 1 "reject" "fraudulent posting").items =
      [{ exItem1 with status := "archived" }] ∧
    ({ exItem1 with status := "archived" } : ItemRow).status ≠ "removed" ∧
    ({ exItem1 with status := "archived" } : ItemRow).moderation_status = some "pending" ∧
    (handleItemAction exStateC6 1 "reject" "fraudulent posting").notifications = [] := by
  decide

/-- Claim C6 (amended): the reject action sets the targeted item's
status to "archived", leaving its moderation_status and flagged fields
as they were, and touches no claim, dispute or notification. -/
theorem handleItemAction_reject_spec (s : PortalState) (iid : Nat) (note : String)
    (it : ItemRow) (hm : it ∈ s.items) (hid : it.id = iid) :
    { it with status := "archived" } ∈ (handleItemAction s iid "reject" note).items ∧
    ({ it with status := "archived" } : ItemRow).moderation_status = it.moderation_status ∧
    ({ it with status := "archived" } : ItemRow).flagged = it.flagged ∧
    (handleItemAction s iid "reject" note).claims = s.claims ∧
    (handleItemAction s iid "reject" note).disputes = s.disputes ∧
    (handleItemAction s iid "reject" note).notifications = s.notifications := by
  refine ⟨?_, rfl, rfl, rfl, rfl, rfl⟩
  refine List.mem_map.mpr ⟨it, hm, ?_⟩
  simp [hid, itemActionStatus]

/-- Claim C6 witness: rejecting the concrete item 1. -/
theorem handleItemAction_reject_spec_witness :
    (exItem1 ∈ exStateC6.items ∧ exItem1.id = 1) ∧
    { exItem1 with status := "archived" } ∈ (handleItemAction exStateC6 1 "reject" "fraud").items :=
  ⟨⟨by decide, rfl⟩,
   (handleItemAction_reject_spec exStateC6 1 "fraud" exItem1 (by decide) rfl).1⟩

/-- A pending claim on item 1 by user 12. -/
def exClaimC : ClaimRow := ⟨3, 1, 12, "that red backpack is mine", "pending", "medium"⟩

/-- A state whose open dispute's item still has a pending claim. -/
def exStateC7 : PortalState := ⟨[exItem1], [exClaimC], [exDispute1], []⟩

/-- Claim C7 counterexample: with a pending claim attached to the
dispute's item, the close action does not fail: it overwrites the
dispute's status (with the raw action string "close"), changing it. -/
theorem handleDisputeAction_close_cex :
    exClaimC.status = "pending" ∧ exClaimC.item_id = exDispute1.item_id ∧
    (handleDisputeAction exStateC7 1 "close").disputes =
      [{ exDispute1 with status := "close", lastActivity := "Just now" }] ∧
    ({ exDispute1 with status := "close", lastActivity := "Just now" } : DisputeRow).status ≠
      exDispute1.status := by
  decide

/-- Claim C7 (amended): handleDisputeAction performs no validation:
for any state — pending claims or not — the close action sets the
targeted dispute's status to the string "close" and its lastActivity
to "Just now", and leaves items, claims and notifications unchanged;
it cannot fail with InvalidState. -/
theorem handleDisputeAction_close_spec (s : PortalState) (did : Nat)
    (d : DisputeRow) (hm : d ∈ s.disputes) (hid : d.id = did) :
    { d with status := "close", lastActivity := "Just now" } ∈
      (handleDisputeAction s did "close").disputes ∧
    (handleDisputeAction s did "close").claims = s.claims ∧
    (handleDisputeAction s did "close").items = s.items ∧
    (handleDisputeAction s did "close").notifications = s.notifications := by
  refine ⟨?_, rfl, rfl, rfl⟩
  refine List.mem_map.mpr ⟨d, hm, ?_⟩
  simp [hid]

/-- Claim C7 witness: closing the concrete dispute 1 while claim 3 is
still pending. -/
theorem handleDisputeAction_close_spec_witness :
    (exDispute1 ∈ exStateC7.disputes ∧ exDispute1.id = 1) ∧
    { exDispute1 with status := "close", lastActivity := "Just now" } ∈
      (handleDisputeAction exStateC7 1 "close").disputes :=
  ⟨⟨by decide, rfl⟩,
   (handleDisputeAction_close_spec exStateC7 1 exDispute1 (by decide) rfl).1⟩

/-- Arguments for a notification triggered by one concrete
transition. -/
def exNotifArgs : NotifArgs :=
  ⟨10, "Claim update", "Your claim was superseded", "claim_rejected", "normal",
   some 1, some 2, none⟩

/-- Claim C8 counterexample: calling create_notification twice with
identical arguments (same triggering item and claim references, same
recipient) stores two notification rows, not one. -/
theorem create_notification_cex :
    (create_notification (create_notification [] 0 exNotifArgs) 1 exNotifArgs).length = 2 ∧
    (create_notification (create_notification [] 0 exNotifArgs) 1 exNotifArgs).length ≠ 1 := by
  decide

/-- Claim C8 (amended): create_notification is a plain INSERT with no
deduplication — there is no triggering-transition key at all — so two
calls with the same arguments always add two rows. -/
theorem create_notification_appends (db : List NotifRow) (f1 f2 : Nat) (a : NotifArgs) :
    (create_notification (create_notification db f1 a) f2 a).length = db.length + 2 := by
  simp [create_notification]

/-- Claim C9: for an action other than approve and reject,
handleItemAction stores the action string itself as the targeted
item's status, and the documented "archive" action string is not a
member of the declared item_status enumeration. -/
theorem handleItemAction_passthrough (s : PortalState) (iid : Nat) (act note : String)
    (it : ItemRow) (hm : it ∈ s.items) (hid : it.id = iid)
    (h1 : act ≠ "approve") (h2 : act ≠ "reject") :
    { it with status := act } ∈ (handleItemAction s iid act note).items ∧
    ¬ ("archive" ∈ item_status_values) := by
  refine ⟨?_, by decide⟩
  refine List.mem_map.mpr ⟨it, hm, ?_⟩
  have ha : itemActionStatus act = act := by
    simp [itemActionStatus, h1, h2]
  simp [hid, ha]

/-- Claim C9 witness: the archive action on the concrete item 1 yields
the out-of-enum status "archive". -/
theorem handleItemAction_passthrough_witness :
    (exItem1 ∈ exStateC6.items ∧ exItem1.id = 1 ∧
     ("archive" : String) ≠ "approve" ∧ ("archive" : String) ≠ "reject") ∧
    ({ exItem1 with status := "archive" } ∈
       (handleItemAction exStateC6 1 "archive" "").items ∧
     ¬ ("archive" ∈ item_status_values)) :=
  ⟨⟨by decide, rfl, by decide, by decide⟩,
   handleItemAction_passthrough exStateC6 1 "archive" "" exItem1 (by decide) rfl
     (by decide) (by decide)⟩

/-- Mapping a function that fixes every element of a list leaves the
list unchanged. -/
lemma map_eq_self_of {α : Type} (l : List α) (f : α → α) (h : ∀ x ∈ l, f x = x) :
    l.map f = l := by
  induction l with
  | nil => rfl
  | cons a t ih =>
      have ha := h a (List.mem_cons_self a t)
      have ht : ∀ x ∈ t, f x = x := fun x hx => h x (List.mem_cons_of_mem a hx)
      simp [ha, ih ht]

/-- Claim C10: increment_item_view_count bumps the matching item's
view_count by exactly one, keeping its other fields; every
non-matching item is kept as is, no row is added or dropped, and when
no stored item carries the id the table is returned unchanged. -/
theorem increment_item_view_count_spec (db : List ItemRow) (u : Nat)
    (r : ItemRow) (hm : r ∈ db) :
    (r.id = u → { r with view_count := r.view_count + 1 } ∈ increment_item_view_count db u) ∧
    (r.id ≠ u → r ∈ increment_item_view_count db u) ∧
    (increment_item_view_count db u).length = db.length ∧
    ((∀ x ∈ db, x.id ≠ u) → increment_item_view_count db u = db) := by
  refine ⟨?_, ?_, ?_, ?_⟩
  · intro hid
    refine List.mem_map.mpr ⟨r, hm, ?_⟩
    simp [hid]
  · intro hid
    refine List.mem_map.mpr ⟨r, hm, ?_⟩
    simp [hid]
  · simp [increment_item_view_count]
  · intro hall
    apply map_eq_self_of
    intro x hx
    simp [hall x hx]

/-- An item with id 6 and three views. -/
def exItemV : ItemRow :=
  ⟨6, 2, "lost", "Lost keys near cafeteria", 0, "active", 3, false, none, none, 0⟩

/-- A two-item table. -/
def exDbV : List ItemRow := [exItem1, exItemV]

/-- Claim C10 witness: bumping item 6 in the concrete two-item table
stores its row with view_count 4. -/
theorem increment_item_view_count_spec_witness :
    (exItemV ∈ exDbV ∧ exItemV.id = 6) ∧
    { exItemV with view_count := exItemV.view_count + 1 } ∈ increment_item_view_count exDbV 6 :=
  ⟨⟨by decide, rfl⟩, (increment_item_view_count_spec exDbV 6 exItemV (by decide)).1 rfl⟩

end LFound
